import Mathlib

/-!
Verification of mask_maker.py.

A shallow embedding of the mask_maker repository (file `mask_maker.py`):
a lasso-based region-capture session (`LassoManager`) and a point-in-polygon
rasterizer (`mask_create`) turning drawn polygons into a boolean grid mask,
plus the merge step `combine_data_and_mask`.

Numeric values are modelled by exact rationals (ℚ).  Fallible Python code is
modelled with `Except`/`Option`: a `.error`/`none` marks a place where the
Python code raises an exception.
-/

namespace MaskMaker

/-- A point in the data display coordinate space. -/
abbrev Point : Type := ℚ × ℚ

/-- A polygon as stored by the capture session: the ordered vertex list of a
completed lasso.  `path.Path(verts)` keeps exactly the vertices; the closing
edge from the last vertex back to the first is implicit in the
point-in-polygon test. -/
abbrev Polygon : Type := List Point

/-- Edge list of an implicitly closed polygon: consecutive vertex pairs plus
the closing edge from the last vertex back to the first. -/
def edges (poly : Polygon) : List (Point × Point) :=
  match poly with
  | [] => []
  | v :: _ => poly.zip (poly.drop 1 ++ [v])

/-- Does the edge from `a` to `b` cross the horizontal ray going right from
`pt`?  This is one step of the standard even-odd (crossing-number) scan-line
test: the edge straddles the horizontal line through `pt` and the crossing
point lies strictly to the right of `pt`. -/
def edgeCrosses (pt a b : Point) : Bool :=
  (decide (a.2 > pt.2) != decide (b.2 > pt.2)) &&
    decide (pt.1 < (b.1 - a.1) * (pt.2 - a.2) / (b.2 - a.2) + a.1)

/-- Even-odd point-in-polygon test over exact rationals, modelling the
external `matplotlib.path.Path.contains_points` routine used at line 135 of
the source (matplotlib's C `point_in_path` implements this standard even-odd
crossing-number convention; on points strictly inside or strictly outside the
polygon — the only cases the claims depend on — every crossing-number
implementation agrees). -/
def contains_point (poly : Polygon) (pt : Point) : Bool :=
  (edges poly).foldl (fun c e => if edgeCrosses pt e.1 e.2 then !c else c) false

/-- Vectorised form: `p.contains_points(points)` from the source. -/
def contains_points (poly : Polygon) (pts : List Point) : List Bool :=
  pts.map (contains_point poly)

/-- Python builtin `max` over a sequence of numbers; the `[]` case is junk
(Python raises `ValueError` there, which callers model separately). -/
def lmax : List ℚ → ℚ
  | [] => 0
  | x :: xs => xs.foldl max x

/-- Python builtin `min` over a sequence of numbers; `[]` case as in `lmax`. -/
def lmin : List ℚ → ℚ
  | [] => 0
  | x :: xs => xs.foldl min x

/-- The numpy `np.arange(start, stop, step)` for a positive rational step: the points
`start + k*step` for `0 ≤ k < ⌈(stop-start)/step⌉`.  `none` models the
exceptions numpy raises when the step is zero (`ZeroDivisionError`) — a NaN
step cannot arise here because the NaN-producing computation is guarded
before `arangeQ` is reached (see `mask_create`). -/
def arangeQ (start stop step : ℚ) : Option (List ℚ) :=
  if 0 < step then
    some ((List.range ⌈(stop - start) / step⌉₊).map (fun (k : ℕ) => start + (k : ℚ) * step))
  else none

/-- Line 129-131 of the source: `np.meshgrid(xv, yv)` followed by `flatten` of both coordinate arrays and
`np.vstack((x,y)).T`: the flattened list of sample points, y-major (for each
y value in order, all x values in order), exactly numpy's row-major flattening
of the meshgrid output of shape `(len(yv), len(xv))`. -/
def canvasPoints (xv yv : List ℚ) : List Point :=
  yv.flatMap (fun yk => xv.map (fun xj => (xj, yk)))

/-- numpy `+` on two boolean arrays: elementwise logical OR. -/
def orVec (a b : List Bool) : List Bool :=
  List.zipWith or a b

/-- Lines 137-147 of the source: combine the per-polygon containment vectors.
`none` is the `len(grids) == 0` case (the source then takes its separate
`else` branch).  One vector passes through; two are added; three or more are
added by the `while` loop, i.e. a left fold of elementwise OR. -/
def combineGrids : List (List Bool) → Option (List Bool)
  | [] => none
  | [g] => some g
  | [g1, g2] => some (orVec g1 g2)
  | g1 :: g2 :: rest => some (rest.foldl orVec (orVec g1 g2))

/-- The rows of a row-major reshape of `v` to shape `(r, c)`: entry `(i, j)`
is `v[i*c + j]`. -/
def reshapeRows (v : List Bool) (r c : ℕ) : List (List Bool) :=
  (List.range r).map (fun i => (List.range c).map (fun j => v.getD (i * c + j) false))

/-- The numpy `v.reshape(r, c)`: row-major reshape; `none` models the
`ValueError` numpy raises when the element count does not match `r * c`. -/
def reshape2 (v : List Bool) (r c : ℕ) : Option (List (List Bool)) :=
  if v.length = r * c then some (reshapeRows v r c) else none

/-- The part of an xarray `DataArray` that `mask_create` and
`combine_data_and_mask` read: its x and y coordinate axes (the values behind
`data_array.coords[xcoord]` / `[ycoord]`) and its 2D field values (dims
`(ycoord, xcoord)`, so shape `(len(ys), len(xs))` for a well-formed array). -/
structure DataArray where
  xs : List ℚ
  ys : List ℚ
  values : List (List ℚ)
deriving DecidableEq

/-- The per-instance state of a `LassoManager` object as `mask_create` sees
it: the polygon list visible through `lman.paths` attribute lookup, plus the
other instance attributes set by `__init__` (`data`, `Nxy`, `cid`), which the
rasterizer never reads. -/
structure LassoManager where
  paths : List Polygon
  data : List Point
  Nxy : ℕ
  cid : ℕ
deriving DecidableEq

/-- Axis spacing `distx = (max(xs)-min(xs))/(lenx-1)` from lines 126-127 of
the source. -/
def distQ (l : List ℚ) : ℚ :=
  (lmax l - lmin l) / ((l.length : ℚ) - 1)

/-- The rasterizer `mask_create(data_array, proj, lman, xcoord, ycoord)`,
lines 99-152.  `proj` is an opaque projection handle that the body never
reads.

Error modelling (the source contains no explicit checks; the exceptions come
from Python/numpy semantics):
* an empty axis: Python `max()` over an empty sequence raises `ValueError`
  at line 126/127;
* a one-point axis: `(max-min)/(len-1)` is numpy `0.0/0`, which silently
  yields NaN, and `np.arange` with a NaN bound/step at line 129 then raises
  `ValueError: cannot convert float NaN to integer` — modelled by the guard
  placed where that exception becomes inevitable;
* a zero spacing (constant axis of length ≥ 2): `np.arange` with zero step
  raises `ZeroDivisionError` — the `arangeQ = none` branch;
* a reshape size mismatch would raise `ValueError` — the `reshape2 = none`
  branch (provably unreachable, see the canvas-size theorems).

With no polygons the source returns `np.zeros((len(xs), len(ys)))`, a
float array of zeros: as a boolean mask, all entries false.  Note the source
reshapes to `(len(xs), len(ys))` — x leading — at lines 149 and 152. -/
def mask_create (data_array : DataArray) (proj : ℕ) (lman : LassoManager) :
    Except String (List (List Bool)) :=
  let xs := data_array.xs
  let ys := data_array.ys
  if xs.isEmpty || ys.isEmpty then
    Except.error "ValueError: max() arg is an empty sequence"
  else if xs.length == 1 || ys.length == 1 then
    Except.error "ValueError: cannot convert float NaN to integer"
  else
    match arangeQ (lmin xs) (lmax xs + distQ xs) (distQ xs),
          arangeQ (lmin ys) (lmax ys + distQ ys) (distQ ys) with
    | some xv, some yv =>
      let points := canvasPoints xv yv
      let grids := lman.paths.map (fun p => contains_points p points)
      match combineGrids grids with
      | some full =>
        match reshape2 full xs.length ys.length with
        | some mask => Except.ok mask
        | none => Except.error "ValueError: cannot reshape array"
      | none => Except.ok (List.replicate xs.length (List.replicate ys.length false))
    | _, _ => Except.error "ZeroDivisionError: division by zero"

/-- The xarray `Dataset` built by `combine_data_and_mask`: the unchanged
original field under key `data` and the mask under key `mask` with declared
dims `(ycoord, xcoord)`. -/
structure Dataset where
  data : DataArray
  mask : List (List Bool)
  maskYDim : String
  maskXDim : String
deriving DecidableEq

/-- The merge step `combine_data_and_mask(data_array, mask, xcoord, ycoord)`,
lines 154-176:
`xarray.Dataset({'data': data_array, 'mask': ((ycoord, xcoord), mask)})`.
xarray aligns the mask's declared dims `(ycoord, xcoord)` against the
field's own coordinate axes of those names and raises `ValueError`
(conflicting sizes / not an array) unless the mask is a rectangular 2D array
of shape `(len(ys), len(xs))`. -/
def combine_data_and_mask (data_array : DataArray) (mask : List (List Bool))
    (xcoord ycoord : String) : Except String Dataset :=
  if mask.length == data_array.ys.length
      && mask.all (fun row => row.length == data_array.xs.length) then
    Except.ok ⟨data_array, mask, ycoord, xcoord⟩
  else
    Except.error "ValueError: conflicting sizes for dimension"

/-- A pointer-press event as the `onpress` handler reads it: `inaxes` is
`None` when the press happened outside any plotted axes, otherwise the axes
identity; `xdata`/`ydata` is the press position in data coordinates. -/
structure Event where
  inaxes : Option ℕ
  xdata : ℚ
  ydata : ℚ
deriving DecidableEq

/-- The per-instance mutable state of one `LassoManager` session:
whether its canvas's exclusive widget lock is held, the in-progress `Lasso`
gesture (`self.lasso`: the axes it is bound to and its start point; `none`
after `del self.lasso` or before any press), and the outline patches added to
its axes. -/
structure SessionState where
  canvasLocked : Bool
  lasso : Option (ℕ × Point)
  axesPatches : List Polygon
deriving DecidableEq

/-- A program run holding several `LassoManager` sessions.  Crucially,
`paths = []` at line 199 of the source is a CLASS-level attribute, created
once when the class statement executes — so there is exactly one such list
per program run, held here, not one per session. -/
structure World where
  classPaths : List Polygon
  sessions : List SessionState
deriving DecidableEq

/-- A freshly constructed `LassoManager(ax, data)`: `__init__` (lines
200-218) sets only per-instance attributes (`axes`, `canvas`, `data`, `Nxy`,
`collection`, `cid`) and never assigns `self.paths` — so construction leaves
the class-level polygon list untouched and the new session starts unlocked
with no gesture in progress. -/
def initSession : SessionState :=
  ⟨false, none, []⟩

/-- The polygon list a given session observes as `self.paths`.  Python
attribute lookup: no instance ever binds its own `paths` (the only write is
`self.paths.append(p)`, which mutates in place), so the lookup falls through
to the single class attribute, for every session alike. -/
def observedPaths (w : World) (_sessionIdx : ℕ) : List Polygon :=
  w.classPaths

/-- The press handler `LassoManager.onpress(self, event)`, lines 233-238, run
by session `i` of the world: return unchanged if the canvas widget lock is held or the event
is outside any axes; otherwise create `self.lasso` bound to `event.inaxes`
at the press position and acquire the widget lock. -/
def onpress (w : World) (i : ℕ) (e : Event) : World :=
  match w.sessions[i]? with
  | none => w
  | some s =>
    if s.canvasLocked then w
    else
      match e.inaxes with
      | none => w
      | some ax =>
        ⟨w.classPaths,
         w.sessions.set i ⟨true, some (ax, (e.xdata, e.ydata)), s.axesPatches⟩⟩

/-- The gesture-completion handler `LassoManager.callback(self, verts)`,
lines 220-231, run by session `i` of the world when its lasso gesture completes: `self.paths.append(Path(verts))`
mutates the class-level list in place; a patch with the same vertices is
added to the session's own axes; the widget lock is released and
`self.lasso` deleted. -/
def callback (w : World) (i : ℕ) (verts : List Point) : World :=
  match w.sessions[i]? with
  | none => w
  | some s =>
    ⟨w.classPaths ++ [verts],
     w.sessions.set i ⟨false, none, s.axesPatches ++ [verts]⟩⟩

/-- The uniform sample axis `np.arange` produces for an axis list `l` inside
`mask_create`: `l.length` points starting at `min l`, stepped by `distQ l`. -/
def gridAxis (l : List ℚ) : List ℚ :=
  (List.range l.length).map (fun (k : ℕ) => lmin l + (k : ℚ) * distQ l)

/-- The flattened canvas of sample points `mask_create` rasterizes over. -/
def canvasPts (d : DataArray) : List Point :=
  canvasPoints (gridAxis d.xs) (gridAxis d.ys)

/-- The combined flat containment vector: one boolean per canvas point, true
when at least one polygon of `ps` contains the point. -/
def flatOr (d : DataArray) (ps : List Polygon) : List Bool :=
  (canvasPts d).map (fun pt => ps.any (fun p => contains_point p pt))

theorem length_gridAxis (l : List ℚ) : (gridAxis l).length = l.length := by
  unfold gridAxis
  rw [List.length_map, List.length_range]

theorem zipWith_map_same {α β γ : Type} (l : List α) (F G : α → β) (g : β → β → γ) :
    List.zipWith g (l.map F) (l.map G) = l.map (fun x => g (F x) (G x)) := by
  induction l with
  | nil => rfl
  | cons a l ih =>
    simp only [List.map_cons, List.zipWith_cons_cons]
    rw [ih]

theorem orVec_map {α : Type} (l : List α) (f g : α → Bool) :
    orVec (l.map f) (l.map g) = l.map (fun x => f x || g x) :=
  zipWith_map_same l f g or

theorem length_canvasPoints (xv yv : List ℚ) :
    (canvasPoints xv yv).length = yv.length * xv.length := by
  induction yv with
  | nil => simp [canvasPoints]
  | cons y ys ih =>
    simp only [canvasPoints] at ih ⊢
    simp only [List.flatMap_cons, List.length_append, List.length_map, List.length_cons, ih]
    ring

theorem foldl_orVec_any (qs : List Polygon) (pts : List Point) (f : Point → Bool) :
    List.foldl (fun acc q => orVec acc (pts.map (contains_point q))) (pts.map f) qs
      = pts.map (fun x => f x || qs.any (fun q => contains_point q x)) := by
  induction qs generalizing f with
  | nil => simp
  | cons q qs ih =>
    rw [List.foldl_cons, orVec_map, ih]
    simp [Bool.or_assoc]

theorem combineGrids_any (ps : List Polygon) (pts : List Point) (hne : ps ≠ []) :
    combineGrids (ps.map (fun p => contains_points p pts))
      = some (pts.map (fun pt => ps.any (fun p => contains_point p pt))) := by
  match ps with
  | [] => exact absurd rfl hne
  | [p] => simp [combineGrids, contains_points]
  | [p1, p2] =>
    simp only [List.map_cons, List.map_nil, combineGrids, contains_points, orVec_map]
    simp
  | p1 :: p2 :: r :: rest =>
    simp only [List.map_cons, combineGrids, contains_points, orVec_map]
    rw [← List.map_cons (fun p => pts.map (contains_point p)) r rest, List.foldl_map]
    rw [foldl_orVec_any (r :: rest) pts (fun x => contains_point p1 x || contains_point p2 x)]
    simp [Bool.or_assoc]

theorem combineGrids_empty : combineGrids [] = none := rfl

theorem getD_map_or {α : Type} (l : List α) (f g : α → Bool) (k : ℕ) :
    (l.map (fun x => f x || g x)).getD k false
      = ((l.map f).getD k false || (l.map g).getD k false) := by
  induction l generalizing k with
  | nil => simp
  | cons a l ih =>
    cases k with
    | zero => rfl
    | succ k => simpa using ih k

theorem reshapeRows_map_or (l : List Point) (f g : Point → Bool) (r c : ℕ) :
    reshapeRows (l.map (fun x => f x || g x)) r c
      = List.zipWith (List.zipWith or)
          (reshapeRows (l.map f) r c) (reshapeRows (l.map g) r c) := by
  simp only [reshapeRows, zipWith_map_same, getD_map_or]

theorem arangeQ_axis (l : List ℚ) (h2 : 2 ≤ l.length) (hlt : lmin l < lmax l) :
    arangeQ (lmin l) (lmax l + distQ l) (distQ l) = some (gridAxis l) := by
  have h2q : (2 : ℚ) ≤ (l.length : ℚ) := by exact_mod_cast h2
  have hB : ((l.length : ℚ) - 1) ≠ 0 := by linarith
  have hA : lmax l - lmin l ≠ 0 := ne_of_gt (sub_pos.2 hlt)
  have hd : 0 < distQ l := div_pos (sub_pos.2 hlt) (by linarith)
  have hceil : ((lmax l + distQ l) - lmin l) / distQ l = (l.length : ℚ) := by
    unfold distQ
    field_simp
    ring
  unfold arangeQ gridAxis
  rw [if_pos hd, hceil, Nat.ceil_natCast]

theorem foldr_orVec_any (ps : List Polygon) (pts : List Point) :
    ps.foldr (fun p acc => orVec (pts.map (contains_point p)) acc) (pts.map (fun _ => false))
      = pts.map (fun pt => ps.any (fun p => contains_point p pt)) := by
  induction ps with
  | nil => simp
  | cons p ps ih =>
    rw [List.foldr_cons, ih, orVec_map]
    simp

theorem isEmpty_false_of_two_le {α : Type} (l : List α) (h : 2 ≤ l.length) :
    l.isEmpty = false := by
  cases l with
  | nil => simp at h
  | cons a l => rfl

/-- Normal form of `mask_create` on valid axes (length at least two, not all
coordinates equal — the spec assumes monotonically increasing axes) and a
non-empty polygon list: no exception is raised and the result is the
combined containment vector reshaped with `len(xs)` rows of `len(ys)`. -/
theorem mask_create_ok (d : DataArray) (proj : ℕ) (lman : LassoManager)
    (hx2 : 2 ≤ d.xs.length) (hy2 : 2 ≤ d.ys.length)
    (hxlt : lmin d.xs < lmax d.xs) (hylt : lmin d.ys < lmax d.ys)
    (hne : lman.paths ≠ []) :
    mask_create d proj lman
      = Except.ok (reshapeRows (flatOr d lman.paths) d.xs.length d.ys.length) := by
  have hxe := isEmpty_false_of_two_le d.xs hx2
  have hye := isEmpty_false_of_two_le d.ys hy2
  have hx1 : (d.xs.length == 1) = false := by simp; omega
  have hy1 : (d.ys.length == 1) = false := by simp; omega
  have hlen : (flatOr d lman.paths).length = d.xs.length * d.ys.length := by
    rw [flatOr, List.length_map, canvasPts, length_canvasPoints,
      length_gridAxis, length_gridAxis, Nat.mul_comm]
  simp only [mask_create]
  rw [hxe, hye, arangeQ_axis d.xs hx2 hxlt, arangeQ_axis d.ys hy2 hylt]
  simp only [Bool.or_false, Bool.false_or, hx1, hy1, if_false, Bool.false_eq_true]
  rw [combineGrids_any lman.paths (canvasPoints (gridAxis d.xs) (gridAxis d.ys)) hne]
  simp only [reshape2]
  rw [if_pos]
  · rfl
  · exact hlen

/-! Concrete fixtures used by the claim theorems. -/

/-- The unit square with corners (0.5,0.5), (1.5,0.5), (1.5,1.5), (0.5,1.5)
from the spec's concrete scenario. -/
def unitSquare : Polygon :=
  [(1/2, 1/2), (3/2, 1/2), (3/2, 3/2), (1/2, 3/2)]

/-- A second, disjoint square polygon, for OR-combination witnesses. -/
def squareTwo : Polygon :=
  [(2, 2), (3, 2), (3, 3), (2, 3)]

/-- A fresh program run with two independently constructed sessions. -/
def twoFreshSessions : World :=
  ⟨[], [initSession, initSession]⟩

/-- Vertices of a small completed gesture. -/
def gestureTri : Polygon :=
  [(0, 0), (1, 0), (1, 1)]

/-- A world whose only session's canvas currently holds the widget lock. -/
def lockedWorld : World :=
  ⟨[], [⟨true, none, []⟩]⟩

/-- Does the mask's shape agree with the field's own coordinate grid, i.e. is
it a rectangular 2D array of shape `(len(ys), len(xs))`? -/
def maskShapeMatches (d : DataArray) (mask : List (List Bool)) : Prop :=
  mask.length = d.ys.length ∧ ∀ row ∈ mask, row.length = d.xs.length

theorem maskShapeMatches_iff_cond (d : DataArray) (mask : List (List Bool)) :
    (mask.length == d.ys.length && mask.all (fun row => row.length == d.xs.length)) = true
      ↔ maskShapeMatches d mask := by
  simp [maskShapeMatches, List.all_eq_true]

/-- C1: the claim says the rasterized mask has shape
`(len(y_axis), len(x_axis))`, y leading.  The code instead reshapes the
combined vector to `(len(xs), len(ys))` — x leading (line 149).  At
x_axis = [0,1], y_axis = [0,1,2] with one polygon, the returned mask has
2 rows (= len(x_axis)) of length 3, not 3 rows (= len(y_axis)) of length 2
as the claim requires. -/
theorem mask_create_shape_transposed :
    mask_create ⟨[0, 1], [0, 1, 2], []⟩ 0 ⟨[unitSquare], [], 0, 0⟩
        = Except.ok [[false, false, false], [true, false, false]] ∧
      ([[false, false, false], [true, false, false]] : List (List Bool)).length
        = ([0, 1] : List ℚ).length ∧
      ([[false, false, false], [true, false, false]] : List (List Bool)).length
        ≠ ([0, 1, 2] : List ℚ).length := by
  refine ⟨by with_unfolding_all rfl, rfl, by decide⟩

/-- C2: the claim says an empty polygon list yields an all-false mask of
shape `(len(y_axis), len(x_axis))` with no error.  The code does return an
all-false array and raises no error, but of shape
`(len(x_axis), len(y_axis))` (line 152: `np.zeros((len(xs), len(ys)))`):
at x_axis = [0,1], y_axis = [0,1,2] the result has 2 rows of length 3, not
3 rows of length 2. -/
theorem mask_create_no_polygons_transposed :
    mask_create ⟨[0, 1], [0, 1, 2], []⟩ 0 ⟨[], [], 0, 0⟩
        = Except.ok (List.replicate 2 (List.replicate 3 false)) ∧
      (2 : ℕ) = ([0, 1] : List ℚ).length ∧
      (2 : ℕ) ≠ ([0, 1, 2] : List ℚ).length := by
  refine ⟨by with_unfolding_all rfl, rfl, by decide⟩

/-- C3: on valid axes (length ≥ 2, not all coordinates equal), the mask for
`[P1, P2]` is the elementwise logical OR of the masks for `[P1]` and `[P2]`;
and more generally, for any non-empty polygon list the rasterized mask is the
reshape of the cellwise OR of the per-polygon containment vectors. -/
theorem rasterize_or_of_polygons (d : DataArray) (proj : ℕ) (P1 P2 : Polygon)
    (l1 l2 l12 : LassoManager)
    (h1 : l1.paths = [P1]) (h2 : l2.paths = [P2]) (h12 : l12.paths = [P1, P2])
    (hx2 : 2 ≤ d.xs.length) (hy2 : 2 ≤ d.ys.length)
    (hxlt : lmin d.xs < lmax d.xs) (hylt : lmin d.ys < lmax d.ys) :
    (∃ m1 m2 m12,
      mask_create d proj l1 = Except.ok m1 ∧
      mask_create d proj l2 = Except.ok m2 ∧
      mask_create d proj l12 = Except.ok m12 ∧
      m12 = List.zipWith (List.zipWith or) m1 m2) ∧
    (∀ (l : LassoManager) (ps : List Polygon), l.paths = ps → ps ≠ [] →
      mask_create d proj l = Except.ok (reshapeRows
        (ps.foldr (fun p acc => orVec (contains_points p (canvasPts d)) acc)
          ((canvasPts d).map (fun _ => false)))
        d.xs.length d.ys.length)) := by
  constructor
  · refine ⟨reshapeRows (flatOr d [P1]) d.xs.length d.ys.length,
      reshapeRows (flatOr d [P2]) d.xs.length d.ys.length,
      reshapeRows (flatOr d [P1, P2]) d.xs.length d.ys.length, ?_, ?_, ?_, ?_⟩
    · rw [← h1]
      exact mask_create_ok d proj l1 hx2 hy2 hxlt hylt (by rw [h1]; exact List.cons_ne_nil _ _)
    · rw [← h2]
      exact mask_create_ok d proj l2 hx2 hy2 hxlt hylt (by rw [h2]; exact List.cons_ne_nil _ _)
    · rw [← h12]
      exact mask_create_ok d proj l12 hx2 hy2 hxlt hylt (by rw [h12]; exact List.cons_ne_nil _ _)
    · have e12 : flatOr d [P1, P2]
          = (canvasPts d).map (fun pt => contains_point P1 pt || contains_point P2 pt) := by
        simp [flatOr]
      have e1 : flatOr d [P1] = (canvasPts d).map (fun pt => contains_point P1 pt) := by
        simp [flatOr]
      have e2 : flatOr d [P2] = (canvasPts d).map (fun pt => contains_point P2 pt) := by
        simp [flatOr]
      rw [e12, e1, e2, reshapeRows_map_or]
  · intro l ps hl hne
    rw [mask_create_ok d proj l hx2 hy2 hxlt hylt (by rw [hl]; exact hne), hl]
    simp only [contains_points]
    rw [foldr_orVec_any]
    rfl

/-- Witness for C3 at x_axis = y_axis = [0,1] and the two concrete square
polygons. -/
theorem rasterize_or_of_polygons_witness :
    ∃ m1 m2 m12,
      mask_create ⟨[0, 1], [0, 1], []⟩ 0 ⟨[unitSquare], [], 0, 0⟩ = Except.ok m1 ∧
      mask_create ⟨[0, 1], [0, 1], []⟩ 0 ⟨[squareTwo], [], 0, 0⟩ = Except.ok m2 ∧
      mask_create ⟨[0, 1], [0, 1], []⟩ 0 ⟨[unitSquare, squareTwo], [], 0, 0⟩ = Except.ok m12 ∧
      m12 = List.zipWith (List.zipWith or) m1 m2 :=
  (rasterize_or_of_polygons ⟨[0, 1], [0, 1], []⟩ 0 unitSquare squareTwo
    ⟨[unitSquare], [], 0, 0⟩ ⟨[squareTwo], [], 0, 0⟩ ⟨[unitSquare, squareTwo], [], 0, 0⟩
    rfl rfl rfl (by decide) (by decide) (by decide) (by decide)).1

/-- C4: on x_axis = y_axis = [0,1,2,3] with the single unit-square polygon
with corners (0.5,0.5)-(1.5,0.5)-(1.5,1.5)-(0.5,1.5), the rasterizer returns
a 4x4 mask that is true exactly at the cell whose representative point is
(1,1) — row y=1, column x=1 — and false everywhere else. -/
theorem mask_create_unit_square_scenario :
    mask_create ⟨[0, 1, 2, 3], [0, 1, 2, 3], []⟩ 0 ⟨[unitSquare], [], 0, 0⟩
      = Except.ok [[false, false, false, false],
                   [false, true, false, false],
                   [false, false, false, false],
                   [false, false, false, false]] := by
  with_unfolding_all rfl

/-- C5: when either axis has fewer than 2 coordinates, the rasterizer raises
an error synchronously to its caller (a `ValueError` out of `max()` on an
empty axis, or out of `np.arange` fed the NaN spacing `0.0/0` on a one-point
axis; the spec's taxonomy calls this condition InputAxisError). -/
theorem mask_create_short_axis_raises (d : DataArray) (proj : ℕ) (lman : LassoManager)
    (h : d.xs.length < 2 ∨ d.ys.length < 2) :
    ∃ msg, mask_create d proj lman = Except.error msg := by
  simp only [mask_create]
  split
  · exact ⟨_, rfl⟩
  · split
    · exact ⟨_, rfl⟩
    · exfalso
      rename_i h1 h2
      simp only [Bool.or_eq_true, List.isEmpty_iff, beq_iff_eq, not_or] at h1 h2
      obtain ⟨hx, hy⟩ := h1
      obtain ⟨hx1, hy1⟩ := h2
      have hx0 : 0 < d.xs.length := List.length_pos.2 hx
      have hy0 : 0 < d.ys.length := List.length_pos.2 hy
      omega

/-- Witness for C5 at the one-point x-axis [0]. -/
theorem mask_create_short_axis_raises_witness :
    ∃ msg, mask_create ⟨[0], [0, 1], []⟩ 0 ⟨[], [], 0, 0⟩ = Except.error msg :=
  mask_create_short_axis_raises ⟨[0], [0, 1], []⟩ 0 ⟨[], [], 0, 0⟩ (Or.inl (by decide))

/-- C6: the claim says each session owns its own freshly initialized polygon
sequence, so completing a gesture in one session never changes the list
another session observes.  In the code `paths = []` is a class attribute
mutated in place by `self.paths.append`, so all sessions share one list: in
a fresh run with two sessions, session 1 observes `[]` before, but observes
the completed polygon after session 0 finishes a gesture. -/
theorem class_paths_shared_across_sessions :
    observedPaths twoFreshSessions 1 = [] ∧
    observedPaths (callback twoFreshSessions 0 gestureTri) 1 = [gestureTri] :=
  ⟨rfl, rfl⟩

/-- C7: rasterization is deterministic and stateless — its result depends
only on the axes and the polygon list: for any two calls with the same data
array and equal polygon lists, whatever the projection argument and the other
`LassoManager` instance attributes, the returned masks are identical. -/
theorem mask_create_pure (d : DataArray) (proj1 proj2 : ℕ) (l1 l2 : LassoManager)
    (hpaths : l1.paths = l2.paths) :
    mask_create d proj1 l1 = mask_create d proj2 l2 := by
  simp only [mask_create, hpaths]

/-- Witness for C7: two managers with equal polygon lists but different
instance attributes and projections give the same mask. -/
theorem mask_create_pure_witness :
    mask_create ⟨[0, 1], [0, 1], []⟩ 0 ⟨[unitSquare], [], 0, 0⟩
      = mask_create ⟨[0, 1], [0, 1], []⟩ 7 ⟨[unitSquare], [(5, 5)], 3, 9⟩ :=
  mask_create_pure ⟨[0, 1], [0, 1], []⟩ 0 7
    ⟨[unitSquare], [], 0, 0⟩ ⟨[unitSquare], [(5, 5)], 3, 9⟩ rfl

/-- C8: the merge step fails exactly when the mask's shape does not match
`(len(ys), len(xs))` of the field's own coordinate grid, and otherwise
returns a bundle pairing the unchanged original field with the mask under
the given axis names. -/
theorem combine_data_and_mask_spec (d : DataArray) (mask : List (List Bool))
    (xcoord ycoord : String) :
    (maskShapeMatches d mask →
      combine_data_and_mask d mask xcoord ycoord = Except.ok ⟨d, mask, ycoord, xcoord⟩) ∧
    (¬ maskShapeMatches d mask →
      ∃ msg, combine_data_and_mask d mask xcoord ycoord = Except.error msg) := by
  constructor
  · intro hm
    unfold combine_data_and_mask
    rw [if_pos ((maskShapeMatches_iff_cond d mask).2 hm)]
  · intro hm
    unfold combine_data_and_mask
    rw [if_neg (fun hc => hm ((maskShapeMatches_iff_cond d mask).1 hc))]
    exact ⟨_, rfl⟩

/-- Witness for C8 on a matching 3x2 mask over a 2-by-3 grid. -/
theorem combine_data_and_mask_spec_witness :
    combine_data_and_mask ⟨[0, 1], [0, 1, 2], []⟩
        [[false, false], [true, false], [false, false]]
        "projection_x_coordinate" "projection_y_coordinate"
      = Except.ok ⟨⟨[0, 1], [0, 1, 2], []⟩,
          [[false, false], [true, false], [false, false]],
          "projection_y_coordinate", "projection_x_coordinate"⟩ :=
  (combine_data_and_mask_spec ⟨[0, 1], [0, 1, 2], []⟩
    [[false, false], [true, false], [false, false]]
    "projection_x_coordinate" "projection_y_coordinate").1 ⟨rfl, by decide⟩

/-- C9: a press event delivered while the canvas widget lock is held, or
carrying no valid position (outside the plotted axes), leaves the session
state entirely unchanged — no gesture starts, no lock is acquired, and the
polygon list is untouched. -/
theorem onpress_ignored (w : World) (i : ℕ) (e : Event) (s : SessionState)
    (hs : w.sessions[i]? = some s)
    (hcond : s.canvasLocked = true ∨ e.inaxes = none) :
    onpress w i e = w := by
  unfold onpress
  rw [hs]
  rcases hcond with h | h
  · simp [h]
  · simp [h]

/-- Witness for C9: a press inside the axes while the lock is held changes
nothing. -/
theorem onpress_ignored_witness :
    onpress lockedWorld 0 ⟨some 0, 0, 0⟩ = lockedWorld :=
  onpress_ignored lockedWorld 0 ⟨some 0, 0, 0⟩ ⟨true, none, []⟩ rfl (Or.inl rfl)

/-- C10: under exact arithmetic, on axes of length ≥ 2 (with the spec's
standing assumption that coordinates are increasing, i.e. not all equal),
both `np.arange` calls succeed and produce exactly `len(x_axis)` and
`len(y_axis)` sample values, the flattened canvas has exactly
`len(x_axis) * len(y_axis)` points, and hence the final reshape of the
combined containment vector is well-defined: `mask_create` returns a mask
and no reshape error for every non-empty polygon list. -/
theorem canvas_matches_grid (d : DataArray)
    (hx2 : 2 ≤ d.xs.length) (hy2 : 2 ≤ d.ys.length)
    (hxlt : lmin d.xs < lmax d.xs) (hylt : lmin d.ys < lmax d.ys) :
    (∃ xv yv,
      arangeQ (lmin d.xs) (lmax d.xs + distQ d.xs) (distQ d.xs) = some xv ∧
      arangeQ (lmin d.ys) (lmax d.ys + distQ d.ys) (distQ d.ys) = some yv ∧
      xv.length = d.xs.length ∧ yv.length = d.ys.length ∧
      (canvasPoints xv yv).length = d.xs.length * d.ys.length) ∧
    (∀ (proj : ℕ) (lman : LassoManager), lman.paths ≠ [] →
      ∃ m, mask_create d proj lman = Except.ok m) := by
  constructor
  · exact ⟨gridAxis d.xs, gridAxis d.ys, arangeQ_axis d.xs hx2 hxlt, arangeQ_axis d.ys hy2 hylt,
      length_gridAxis d.xs, length_gridAxis d.ys, by
        rw [length_canvasPoints, length_gridAxis, length_gridAxis, Nat.mul_comm]⟩
  · intro proj lman hne
    exact ⟨_, mask_create_ok d proj lman hx2 hy2 hxlt hylt hne⟩

/-- Witness for C10 on the 2-by-2 grid [0,1] x [0,1]. -/
theorem canvas_matches_grid_witness :
    ∃ xv yv,
      arangeQ (lmin ([0, 1] : List ℚ)) (lmax [0, 1] + distQ [0, 1]) (distQ [0, 1]) = some xv ∧
      arangeQ (lmin ([0, 1] : List ℚ)) (lmax [0, 1] + distQ [0, 1]) (distQ [0, 1]) = some yv ∧
      xv.length = ([0, 1] : List ℚ).length ∧ yv.length = ([0, 1] : List ℚ).length ∧
      (canvasPoints xv yv).length = ([0, 1] : List ℚ).length * ([0, 1] : List ℚ).length :=
  (canvas_matches_grid ⟨[0, 1], [0, 1], []⟩
    (by decide) (by decide) (by decide) (by decide)).1

end MaskMaker
